import Mathlib

set_option maxRecDepth 20000

/- Shallow embedding of the medical coding tool's frontend core logic
   (src/frontend/pages/index.tsx): the ICD-10 diagnosis search, the
   modifier suggestion rules and the NCCI pair check, together with the
   in-memory data tables they read.  JavaScript strings are modelled as
   Lean `String` / `List Char`, and the JS string built-ins used by the
   source (`trim`, `toLowerCase`, `includes`) are modelled below over
   `List Char`. -/

/-- Whitespace recognised by JS `String.prototype.trim`: ASCII whitespace
together with the Unicode space separators, line separators and the BOM. -/
def jsWhite (c : Char) : Bool :=
  c = ' ' || c = '\t' || c = '\n' || c = '\x0b' || c = '\x0c' || c = '\r' ||
  c = '\u00A0' || c = '\uFEFF' || c = '\u1680' ||
  c = '\u2000' || c = '\u2001' || c = '\u2002' || c = '\u2003' ||
  c = '\u2004' || c = '\u2005' || c = '\u2006' || c = '\u2007' ||
  c = '\u2008' || c = '\u2009' || c = '\u200A' ||
  c = '\u2028' || c = '\u2029' || c = '\u202F' || c = '\u205F' || c = '\u3000'

/-- JS `s.trim()`: drop whitespace from both ends. -/
def trimL (l : List Char) : List Char :=
  ((l.dropWhile jsWhite).reverse.dropWhile jsWhite).reverse

/-- JS `s.trim()` on the `String` wrapper. -/
def jsTrim (s : String) : String := ⟨trimL s.data⟩

/-- JS `String.prototype.toLowerCase` restricted to the ASCII range, which
covers every character appearing in the embedded tables. -/
def lowerChar (c : Char) : Char :=
  if 'A' ≤ c && c ≤ 'Z' then Char.ofNat (c.toNat + 32) else c

/-- Character-list version of `toLowerCase`. -/
def lowerL (l : List Char) : List Char := l.map lowerChar

/-- Does the second list occur at the front of the first? -/
def leadsWith : List Char → List Char → Bool
  | _, [] => true
  | [], _ :: _ => false
  | c :: t, d :: u => c = d && leadsWith t u

/-- JS `hay.includes(needle)` substring test. -/
def jsIncludes : List Char → List Char → Bool
  | [], n => leadsWith [] n
  | c :: t, n => leadsWith (c :: t) n || jsIncludes t n

/-- A record of the ICD-10 sample catalog (`ICDResult` in the source). -/
structure ICDResult where
  code : String
  title : String
  includes : Option (List String)
  excludes : Option (List String)
  synonyms : Option (List String)
deriving DecidableEq, Repr

/-- A modifier record (`ModifierResult` in the source). -/
structure ModifierResult where
  code : String
  title : String
  reason : String
deriving DecidableEq, Repr

/-- A stored NCCI pair-edit record (`NcciPairRecord` in the source). -/
structure NcciPairRecord where
  status : String
  message : String
  modifier_required : Bool
deriving DecidableEq, Repr

/-- The result of an NCCI pair check (`NCCIResult` in the source). -/
structure NCCIResult where
  cpt_a : String
  cpt_b : String
  status : String
  message : String
  modifier_required : Bool
deriving DecidableEq, Repr

/-- Rows 0–31 of the shipped ICD-10 sample catalog. -/
def sampleIcd10Part0 : List ICDResult := [
  ⟨"M25.561", "Pain in right knee", some ["Right knee pain"], some ["Pain in left knee (M25.562)"], some ["knee pain right", "arthralgia right knee"]⟩,
  ⟨"M25.562", "Pain in left knee", some ["Left knee pain"], some ["Pain in right knee (M25.561)"], some ["knee pain left", "arthralgia left knee"]⟩,
  ⟨"J10.1", "Influenza due to other identified influenza virus with other respiratory manifestations", some ["Influenza with pneumonia"], none, some ["flu with respiratory manifestations", "influenza pneumonia"]⟩,
  ⟨"M54.5", "Low back pain", some ["Lumbago"], none, some ["back pain", "lower back pain"]⟩,
  ⟨"R07.9", "Chest pain, unspecified", some ["Chest pain NOS"], none, some ["chest discomfort", "unspecified chest pain"]⟩,
  ⟨"A09", "Infectious gastroenteritis and colitis, unspecified", none, none, some ["infectious diarrhea", "gastroenteritis"]⟩,
  ⟨"A49.9", "Bacterial infection, unspecified", none, none, some ["unspecified bacterial infection"]⟩,
  ⟨"A41.9", "Sepsis, unspecified organism", none, none, some ["sepsis NOS"]⟩,
  ⟨"B34.9", "Viral infection, unspecified", none, none, some ["viral illness NOS"]⟩,
  ⟨"B37.3", "Candidiasis of vulva and vagina", none, none, some ["vulvovaginal candidiasis", "yeast infection"]⟩,
  ⟨"B02.9", "Zoster without complications", none, none, some ["shingles"]⟩,
  ⟨"B00.1", "Herpesviral vesicular dermatitis", none, none, some ["herpes simplex skin"]⟩,
  ⟨"C50.919", "Malignant neoplasm of unspecified site of unspecified female breast", none, none, some ["breast cancer NOS"]⟩,
  ⟨"C34.90", "Malignant neoplasm of unspecified part of unspecified bronchus or lung", none, none, some ["lung cancer NOS"]⟩,
  ⟨"D50.9", "Iron deficiency anemia, unspecified", none, none, some ["iron deficiency anemia NOS"]⟩,
  ⟨"D64.9", "Anemia, unspecified", none, none, some ["anemia NOS"]⟩,
  ⟨"D12.6", "Benign neoplasm of colon, unspecified", none, none, some ["colon polyp NOS"]⟩,
  ⟨"E11.9", "Type 2 diabetes mellitus without complications", none, none, some ["type 2 DM", "T2DM"]⟩,
  ⟨"E10.9", "Type 1 diabetes mellitus without complications", none, none, some ["type 1 DM", "T1DM"]⟩,
  ⟨"E03.9", "Hypothyroidism, unspecified", none, none, some ["low thyroid"]⟩,
  ⟨"E05.90", "Thyrotoxicosis, unspecified without thyrotoxic crisis or storm", none, none, some ["hyperthyroidism NOS"]⟩,
  ⟨"E78.5", "Hyperlipidemia, unspecified", none, none, some ["dyslipidemia", "high cholesterol"]⟩,
  ⟨"E78.0", "Pure hypercholesterolemia", none, none, some ["high LDL"]⟩,
  ⟨"E78.1", "Pure hyperglyceridemia", none, none, some ["hypertriglyceridemia"]⟩,
  ⟨"E55.9", "Vitamin D deficiency, unspecified", none, none, some ["vitamin D deficiency"]⟩,
  ⟨"E66.9", "Obesity, unspecified", none, none, some ["obesity NOS"]⟩,
  ⟨"E86.0", "Dehydration", none, none, some ["dehydration"]⟩,
  ⟨"E87.1", "Hypo-osmolality and hyponatremia", none, none, some ["hyponatremia"]⟩,
  ⟨"E87.6", "Hypokalemia", none, none, some ["low potassium"]⟩,
  ⟨"F32.9", "Major depressive disorder, single episode, unspecified", none, none, some ["depression NOS"]⟩,
  ⟨"F41.9", "Anxiety disorder, unspecified", none, none, some ["anxiety NOS"]⟩,
  ⟨"F17.210", "Nicotine dependence, cigarettes, uncomplicated", none, none, some ["tobacco dependence"]⟩]

/-- Rows 32–63 of the shipped ICD-10 sample catalog. -/
def sampleIcd10Part1 : List ICDResult := [
  ⟨"G43.909", "Migraine, unspecified, not intractable, without status migrainosus", none, none, some ["migraine NOS"]⟩,
  ⟨"G40.909", "Epilepsy, unspecified, not intractable, without status epilepticus", none, none, some ["seizure disorder NOS"]⟩,
  ⟨"G47.00", "Insomnia, unspecified", none, none, some ["insomnia NOS"]⟩,
  ⟨"G62.9", "Polyneuropathy, unspecified", none, none, some ["peripheral neuropathy NOS"]⟩,
  ⟨"G89.29", "Other chronic pain", none, none, some ["chronic pain NOS"]⟩,
  ⟨"H10.9", "Unspecified conjunctivitis", none, none, some ["pink eye NOS"]⟩,
  ⟨"H52.4", "Presbyopia", none, none, some ["age-related farsightedness"]⟩,
  ⟨"H61.23", "Impacted cerumen, bilateral", none, none, some ["ear wax impaction both ears"]⟩,
  ⟨"H66.9", "Otitis media, unspecified", none, none, some ["middle ear infection NOS"]⟩,
  ⟨"I10", "Essential (primary) hypertension", none, none, some ["HTN", "high blood pressure"]⟩,
  ⟨"I25.10", "Atherosclerotic heart disease of native coronary artery without angina pectoris", none, none, some ["coronary artery disease NOS"]⟩,
  ⟨"I20.9", "Angina pectoris, unspecified", none, none, some ["angina NOS"]⟩,
  ⟨"I48.91", "Unspecified atrial fibrillation", none, none, some ["AFib NOS"]⟩,
  ⟨"I50.9", "Heart failure, unspecified", none, none, some ["CHF NOS"]⟩,
  ⟨"I63.9", "Cerebral infarction, unspecified", none, none, some ["ischemic stroke NOS"]⟩,
  ⟨"I65.29", "Occlusion and stenosis of unspecified carotid artery", none, none, some ["carotid stenosis NOS"]⟩,
  ⟨"I83.90", "Varicose veins of unspecified lower extremity without ulcer or inflammation", none, none, some ["varicose veins NOS"]⟩,
  ⟨"J06.9", "Acute upper respiratory infection, unspecified", none, none, some ["URI", "common cold"]⟩,
  ⟨"J20.9", "Acute bronchitis, unspecified", none, none, some ["acute bronchitis NOS"]⟩,
  ⟨"J18.9", "Pneumonia, unspecified organism", none, none, some ["pneumonia NOS"]⟩,
  ⟨"J44.9", "Chronic obstructive pulmonary disease, unspecified", none, none, some ["COPD NOS"]⟩,
  ⟨"J45.909", "Unspecified asthma, uncomplicated", none, none, some ["asthma NOS"]⟩,
  ⟨"J30.9", "Allergic rhinitis, unspecified", none, none, some ["hay fever NOS"]⟩,
  ⟨"J22", "Unspecified acute lower respiratory infection", none, none, some ["acute LRI NOS"]⟩,
  ⟨"J96.00", "Acute respiratory failure, unspecified whether with hypoxia or hypercapnia", none, none, some ["acute respiratory failure NOS"]⟩,
  ⟨"K21.9", "Gastro-esophageal reflux disease without esophagitis", none, none, some ["GERD"]⟩,
  ⟨"K29.70", "Gastritis, unspecified, without bleeding", none, none, some ["gastritis NOS"]⟩,
  ⟨"K52.9", "Noninfective gastroenteritis and colitis, unspecified", none, none, some ["gastroenteritis NOS"]⟩,
  ⟨"K35.80", "Unspecified acute appendicitis", none, none, some ["appendicitis NOS"]⟩,
  ⟨"K56.609", "Unspecified intestinal obstruction, unspecified as to partial versus complete", none, none, some ["ileus NOS"]⟩,
  ⟨"K59.00", "Constipation, unspecified", none, none, some ["constipation NOS"]⟩,
  ⟨"K60.2", "Anal fissure, unspecified", none, none, some ["anal fissure NOS"]⟩]

/-- Rows 64–95 of the shipped ICD-10 sample catalog. -/
def sampleIcd10Part2 : List ICDResult := [
  ⟨"K64.9", "Hemorrhoids, unspecified", none, none, some ["hemorrhoids NOS"]⟩,
  ⟨"K80.20", "Calculus of gallbladder without cholecystitis without obstruction", none, none, some ["cholelithiasis"]⟩,
  ⟨"K85.90", "Acute pancreatitis without necrosis or infection, unspecified", none, none, some ["acute pancreatitis NOS"]⟩,
  ⟨"K76.0", "Fatty (change of) liver, not elsewhere classified", none, none, some ["fatty liver", "hepatic steatosis"]⟩,
  ⟨"L03.90", "Cellulitis, unspecified", none, none, some ["cellulitis NOS"]⟩,
  ⟨"L02.91", "Cutaneous abscess, unspecified", none, none, some ["skin abscess NOS"]⟩,
  ⟨"L40.0", "Psoriasis vulgaris", none, none, some ["psoriasis"]⟩,
  ⟨"L30.9", "Dermatitis, unspecified", none, none, some ["eczema NOS"]⟩,
  ⟨"L50.9", "Urticaria, unspecified", none, none, some ["hives NOS"]⟩,
  ⟨"M25.50", "Pain in unspecified joint", none, none, some ["arthralgia NOS"]⟩,
  ⟨"M25.511", "Pain in right shoulder", none, none, some ["shoulder pain right"]⟩,
  ⟨"M25.512", "Pain in left shoulder", none, none, some ["shoulder pain left"]⟩,
  ⟨"M25.551", "Pain in right hip", none, none, some ["hip pain right"]⟩,
  ⟨"M25.552", "Pain in left hip", none, none, some ["hip pain left"]⟩,
  ⟨"M25.571", "Pain in right ankle and joints of right foot", none, none, some ["right ankle pain"]⟩,
  ⟨"M25.572", "Pain in left ankle and joints of left foot", none, none, some ["left ankle pain"]⟩,
  ⟨"M79.1", "Myalgia", none, none, some ["muscle pain"]⟩,
  ⟨"M79.7", "Fibromyalgia", none, none, some ["fibromyalgia syndrome"]⟩,
  ⟨"M17.9", "Osteoarthritis of knee, unspecified", none, none, some ["knee OA NOS"]⟩,
  ⟨"M16.9", "Osteoarthritis of hip, unspecified", none, none, some ["hip OA NOS"]⟩,
  ⟨"M75.100", "Unspecified rotator cuff tear or rupture of unspecified shoulder, not specified as traumatic", none, none, some ["rotator cuff tear NOS"]⟩,
  ⟨"M54.2", "Cervicalgia", none, none, some ["neck pain"]⟩,
  ⟨"M54.16", "Radiculopathy, lumbar region", none, none, some ["lumbar radiculopathy", "sciatica NOS"]⟩,
  ⟨"M81.0", "Age-related osteoporosis without current pathological fracture", none, none, some ["osteoporosis NOS"]⟩,
  ⟨"N39.0", "Urinary tract infection, site not specified", none, none, some ["UTI NOS"]⟩,
  ⟨"N30.00", "Acute cystitis without hematuria", none, none, some ["acute cystitis"]⟩,
  ⟨"N20.0", "Calculus of kidney", none, none, some ["renal stone", "nephrolithiasis"]⟩,
  ⟨"N13.30", "Unspecified hydronephrosis", none, none, some ["hydronephrosis NOS"]⟩,
  ⟨"N40.0", "Enlarged prostate without lower urinary tract symptoms", none, none, some ["BPH NOS"]⟩,
  ⟨"N18.30", "Chronic kidney disease, stage 3 unspecified", none, none, some ["CKD stage 3 NOS"]⟩,
  ⟨"N76.0", "Acute vaginitis", none, none, some ["vaginitis"]⟩,
  ⟨"N92.6", "Irregular menstruation, unspecified", none, none, some ["irregular menses NOS"]⟩]

/-- Rows 96–127 of the shipped ICD-10 sample catalog. -/
def sampleIcd10Part3 : List ICDResult := [
  ⟨"N80.9", "Endometriosis, unspecified", none, none, some ["endometriosis NOS"]⟩,
  ⟨"O26.899", "Other specified pregnancy related conditions, unspecified trimester", none, none, some ["pregnancy related condition NOS"]⟩,
  ⟨"Z30.09", "Encounter for other general counseling and advice on contraception", none, none, some ["contraceptive counseling"]⟩,
  ⟨"R10.9", "Unspecified abdominal pain", none, none, some ["abdominal pain NOS"]⟩,
  ⟨"R11.2", "Nausea with vomiting, unspecified", none, none, some ["nausea and vomiting NOS"]⟩,
  ⟨"R05.9", "Cough, unspecified", none, none, some ["cough NOS"]⟩,
  ⟨"R06.02", "Shortness of breath", none, none, some ["dyspnea"]⟩,
  ⟨"R50.9", "Fever, unspecified", none, none, some ["pyrexia NOS"]⟩,
  ⟨"R19.7", "Diarrhea, unspecified", none, none, some ["diarrhea NOS"]⟩,
  ⟨"R42", "Dizziness and giddiness", none, none, some ["vertigo NOS", "dizziness"]⟩,
  ⟨"R51.9", "Headache, unspecified", none, none, some ["headache NOS"]⟩,
  ⟨"R21", "Rash and other nonspecific skin eruption", none, none, some ["skin rash NOS"]⟩,
  ⟨"R32", "Unspecified urinary incontinence", none, none, some ["incontinence NOS"]⟩,
  ⟨"R63.5", "Abnormal weight gain", none, none, some ["weight gain"]⟩,
  ⟨"R63.4", "Abnormal weight loss", none, none, some ["weight loss"]⟩,
  ⟨"S93.401A", "Sprain of unspecified ligament of right ankle, initial encounter", none, none, some ["right ankle sprain NOS"]⟩,
  ⟨"S93.402A", "Sprain of unspecified ligament of left ankle, initial encounter", none, none, some ["left ankle sprain NOS"]⟩,
  ⟨"S16.1XXA", "Strain of muscle, fascia and tendon at neck level, initial encounter", none, none, some ["neck strain"]⟩,
  ⟨"S39.012A", "Strain of muscle, fascia and tendon of lower back, initial encounter", none, none, some ["lumbar strain"]⟩,
  ⟨"S52.501A", "Unspecified fracture of the lower end of right radius, initial encounter for closed fracture", none, none, some ["distal radius fracture right"]⟩,
  ⟨"T78.40XA", "Allergy, unspecified, initial encounter", none, none, some ["allergic reaction NOS"]⟩,
  ⟨"T78.2XXA", "Anaphylactic shock, unspecified, initial encounter", none, none, some ["anaphylaxis NOS"]⟩,
  ⟨"Z00.00", "Encounter for general adult medical examination without abnormal findings", none, none, some ["annual physical"]⟩,
  ⟨"Z00.01", "Encounter for general adult medical examination with abnormal findings", none, none, some ["physical with abnormal findings"]⟩,
  ⟨"Z01.419", "Encounter for gynecological examination (general) (routine) without abnormal findings", none, none, some ["routine GYN exam"]⟩,
  ⟨"Z11.3", "Encounter for screening for infections with a predominantly sexual mode of transmission", none, none, some ["STD screening"]⟩,
  ⟨"Z11.59", "Encounter for screening for other viral diseases", none, none, some ["viral screening"]⟩,
  ⟨"Z12.11", "Encounter for screening for malignant neoplasm of colon", none, none, some ["colon cancer screening"]⟩,
  ⟨"Z12.31", "Encounter for screening mammogram for malignant neoplasm of breast", none, none, some ["screening mammography"]⟩,
  ⟨"Z12.4", "Encounter for screening for malignant neoplasm of cervix", none, none, some ["cervical cancer screening"]⟩,
  ⟨"Z13.1", "Encounter for screening for diabetes mellitus", none, none, some ["diabetes screening"]⟩,
  ⟨"Z13.22", "Encounter for screening for metabolic disorder", none, none, some ["lipid screening"]⟩]

/-- Rows 128–159 of the shipped ICD-10 sample catalog. -/
def sampleIcd10Part4 : List ICDResult := [
  ⟨"Z20.822", "Contact with and (suspected) exposure to COVID-19", none, none, some ["COVID exposure"]⟩,
  ⟨"Z23", "Encounter for immunization", none, none, some ["vaccination"]⟩,
  ⟨"Z32.01", "Encounter for pregnancy test, result positive", none, none, some ["positive pregnancy test"]⟩,
  ⟨"Z32.02", "Encounter for pregnancy test, result negative", none, none, some ["negative pregnancy test"]⟩,
  ⟨"Z34.90", "Encounter for supervision of normal pregnancy, unspecified, unspecified trimester", none, none, some ["prenatal care NOS"]⟩,
  ⟨"Z68.30", "Body mass index (BMI) 30.0-30.9, adult", none, none, some ["BMI 30-30.9"]⟩,
  ⟨"Z68.31", "Body mass index (BMI) 31.0-31.9, adult", none, none, some ["BMI 31-31.9"]⟩,
  ⟨"Z68.32", "Body mass index (BMI) 32.0-32.9, adult", none, none, some ["BMI 32-32.9"]⟩,
  ⟨"Z68.33", "Body mass index (BMI) 33.0-33.9, adult", none, none, some ["BMI 33-33.9"]⟩,
  ⟨"Z68.34", "Body mass index (BMI) 34.0-34.9, adult", none, none, some ["BMI 34-34.9"]⟩,
  ⟨"Z68.35", "Body mass index (BMI) 35.0-35.9, adult", none, none, some ["BMI 35-35.9"]⟩,
  ⟨"Z68.36", "Body mass index (BMI) 36.0-36.9, adult", none, none, some ["BMI 36-36.9"]⟩,
  ⟨"Z68.37", "Body mass index (BMI) 37.0-37.9, adult", none, none, some ["BMI 37-37.9"]⟩,
  ⟨"Z68.38", "Body mass index (BMI) 38.0-38.9, adult", none, none, some ["BMI 38-38.9"]⟩,
  ⟨"Z68.39", "Body mass index (BMI) 39.0-39.9, adult", none, none, some ["BMI 39-39.9"]⟩,
  ⟨"Z79.01", "Long term (current) use of anticoagulants", none, none, some ["chronic anticoagulation"]⟩,
  ⟨"Z79.4", "Long term (current) use of insulin", none, none, some ["insulin long-term use"]⟩,
  ⟨"Z79.84", "Long term (current) use of oral hypoglycemic drugs", none, none, some ["long-term oral diabetes meds"]⟩,
  ⟨"Z79.899", "Other long term (current) drug therapy", none, none, some ["long-term medication use"]⟩,
  ⟨"Z87.891", "Personal history of nicotine dependence", none, none, some ["former smoker"]⟩,
  ⟨"Z91.19", "Patient’s noncompliance with other medical treatment and regimen", none, none, some ["nonadherence NOS"]⟩,
  ⟨"Z91.81", "History of falling", none, none, some ["falls history"]⟩,
  ⟨"Z99.89", "Dependence on other enabling machines and devices", none, none, some ["device dependence NOS"]⟩,
  ⟨"H81.10", "Benign paroxysmal vertigo, unspecified ear", none, none, some ["BPPV NOS"]⟩,
  ⟨"J01.90", "Acute sinusitis, unspecified", none, none, some ["acute sinusitis NOS"]⟩,
  ⟨"K12.0", "Recurrent oral aphthae", none, none, some ["aphthous ulcer", "canker sores"]⟩,
  ⟨"L29.9", "Pruritus, unspecified", none, none, some ["itching NOS"]⟩,
  ⟨"M62.830", "Muscle spasm of back", none, none, some ["back spasm"]⟩,
  ⟨"N76.4", "Abscess of vulva", none, none, some ["bartholinitis NOS"]⟩,
  ⟨"R09.81", "Nasal congestion", none, none, some ["stuffy nose"]⟩,
  ⟨"R53.83", "Other fatigue", none, none, some ["fatigue"]⟩,
  ⟨"R68.89", "Other general symptoms and signs", none, none, some ["general symptoms NOS"]⟩]

/-- The shipped ICD-10 sample catalog (`SAMPLE_ICD10_DATA` in the source),
assembled from fixed-size chunks to keep elaboration linear. -/
def SAMPLE_ICD10_DATA : List ICDResult :=
  sampleIcd10Part0 ++ sampleIcd10Part1 ++ sampleIcd10Part2 ++ sampleIcd10Part3 ++ sampleIcd10Part4

/-- The shipped modifier records (`MODIFIER_TABLE` in the source), given
names so that theorems can refer to individual rows. -/
def mod25 : ModifierResult :=
  ⟨"25",
   "Significant, separately identifiable evaluation and management service on the same day of the procedure",
   "Use when a separately documented E/M service is performed on the same day as another procedure."⟩

/-- Modifier row 59 of the source table. -/
def mod59 : ModifierResult :=
  ⟨"59", "Distinct procedural service",
   "Indicates a procedure or service was distinct or independent from other services performed on the same day."⟩

/-- Modifier row 50 of the source table. -/
def mod50 : ModifierResult :=
  ⟨"50", "Bilateral procedure",
   "Used when the same procedure is performed on both sides of the body during the same session."⟩

/-- Modifier row LT of the source table. -/
def modLT : ModifierResult :=
  ⟨"LT", "Left side", "Procedures performed on the left side of the body."⟩

/-- Modifier row RT of the source table. -/
def modRT : ModifierResult :=
  ⟨"RT", "Right side", "Procedures performed on the right side of the body."⟩

/-- Modifier row 76 of the source table. -/
def mod76 : ModifierResult :=
  ⟨"76", "Repeat procedure or service by same physician",
   "Indicates a repeat procedure by the same physician."⟩

/-- Modifier row 77 of the source table. -/
def mod77 : ModifierResult :=
  ⟨"77", "Repeat procedure by another physician",
   "Indicates a repeat procedure by a different physician."⟩

/-- Modifier row 26 of the source table. -/
def mod26 : ModifierResult :=
  ⟨"26", "Professional component",
   "Used when only the professional component of a service is being billed (e.g., interpretation of radiologic studies)."⟩

/-- Modifier row TC of the source table. -/
def modTC : ModifierResult :=
  ⟨"TC", "Technical component",
   "Used when only the technical component of a service is being billed (e.g., use of equipment)."⟩

/-- The modifier catalog, in source order. -/
def MODIFIER_TABLE : List ModifierResult :=
  [mod25, mod59, mod50, modLT, modRT, mod76, mod77, mod26, modTC]

/-- The NCCI sample table (`NCCI_PAIRS` in the source): an association
list from a first CPT code to an inner association list from a second
CPT code to the stored record. -/
def NCCI_PAIRS : List (String × List (String × NcciPairRecord)) :=
  [("11719", [("11720",
      ⟨"denied",
       "CPT 11719 is bundled into 11720; they should not be billed together without appropriate modifier.",
       true⟩)]),
   ("17000", [("17110",
      ⟨"allowed",
       "CPT 17000 and 17110 may be reported together with modifier 59 if lesions are separate/distinct sites.",
       true⟩)]),
   ("71045", [("71046",
      ⟨"allowed",
       "Two different chest X‑ray views are generally allowed together.",
       false⟩)])]

/-- Association-list lookup, modelling JS object property access on the
string-keyed table literals. -/
def alookup {α : Type} (k : String) : List (String × α) → Option α
  | [] => none
  | (k', v) :: t => if k = k' then some v else alookup k t

/-- `NCCI_PAIRS[a] && NCCI_PAIRS[a][b]` from the source: look a pair up
in table order. -/
def pairsLookup (a b : String) : Option NcciPairRecord :=
  match alookup a NCCI_PAIRS with
  | some inner => alookup b inner
  | none => none

/-- The NCCI pair check (`handleNcciCheck` in the source).  Returns
`none` when either trimmed code is empty (the source leaves the result
state `null`); otherwise looks the trimmed pair up in both orders and
falls back to a synthesized allowed record. -/
def handleNcciCheck (codeA codeB : String) : Option NCCIResult :=
  if jsTrim codeA = "" ∨ jsTrim codeB = "" then none
  else
    let a := jsTrim codeA
    let b := jsTrim codeB
    match pairsLookup a b with
    | some r => some ⟨a, b, r.status, r.message, r.modifier_required⟩
    | none =>
      match pairsLookup b a with
      | some r => some ⟨a, b, r.status, r.message, r.modifier_required⟩
      | none =>
        some ⟨a, b, "allowed",
              "No known NCCI bundling issues between these CPT codes.", false⟩

/-- `MODIFIER_TABLE.find(m => m.code === c)` from the source, wrapped as a
zero- or one-element list (the guarded `suggestions.push(mod)`). -/
def findMod (c : String) : List ModifierResult :=
  match MODIFIER_TABLE.find? (fun m => m.code == c) with
  | some m => [m]
  | none => []

/-- The eight keyword trigger rules of `handleModifierSearch`, applied to
the lowercased scenario text, in source order. -/
def suggestions (q : List Char) : List ModifierResult :=
  (if (["bilateral", "both sides", "both limbs"].any
        (fun w => jsIncludes q w.data)) then findMod "50" else [])
  ++ (if jsIncludes q "left".data || jsIncludes q " lt ".data then findMod "LT" else [])
  ++ (if jsIncludes q "right".data || jsIncludes q " rt ".data then findMod "RT" else [])
  ++ (if jsIncludes q "repeat".data || jsIncludes q "again".data then findMod "76" else [])
  ++ (if (["distinct", "different site", "separate session"].any
        (fun w => jsIncludes q w.data)) then findMod "59" else [])
  ++ (if jsIncludes q "evaluation".data || jsIncludes q "e/m".data then findMod "25" else [])
  ++ (if jsIncludes q "interpretation".data || jsIncludes q "professional".data then findMod "26" else [])
  ++ (if jsIncludes q "equipment".data || jsIncludes q "technical".data then findMod "TC" else [])

/-- Deduplication by modifier code keeping the first occurrence, with the
accumulated `seen` set modelled as a list of codes. -/
def dedupBy : List String → List ModifierResult → List ModifierResult
  | _, [] => []
  | seen, m :: t =>
    if seen.contains m.code then dedupBy seen t
    else m :: dedupBy (m.code :: seen) t

/-- The modifier suggestion operation (`handleModifierSearch` in the
source): keyword rules over the lowercased scenario, deduplicated. -/
def handleModifierSearch (query : String) : List ModifierResult :=
  if jsTrim query = "" then []
  else dedupBy [] (suggestions (lowerL query.data))

/-- The per-entry search score of `handleIcdSearch`, accumulated exactly
as in the source but stored as twice its value in a `Nat`: the source
adds the floats `2`, `1.5`, `1`, `0.5`, `1`, all integer multiples of
`0.5` on which float addition is exact, so we count half points
(`4`, `3`, `2`, `1`, `2`).  `icdScoreQ` below restates the score over `ℚ`
with the source's literal constants and is proved to be half this value. -/
def icdScoreH (q : List Char) (e : ICDResult) : Nat :=
  let s1 : Nat := if jsIncludes (lowerL e.code.data) q then 0 + 4 else 0
  let s2 := if jsIncludes (lowerL e.title.data) q then s1 + 3 else s1
  let s3 := (e.includes.getD []).foldl
    (fun acc s => if jsIncludes (lowerL s.data) q then acc + 2 else acc) s2
  let s4 := (e.excludes.getD []).foldl
    (fun acc s => if jsIncludes (lowerL s.data) q then acc + 1 else acc) s3
  let s5 := (e.synonyms.getD []).foldl
    (fun acc s => if jsIncludes (lowerL s.data) q then acc + 2 else acc) s4
  s5

/-- The search score over `ℚ`, with the literal constants of the source
(`+2` code, `+1.5` title, `+1` per includes string, `+0.5` per excludes
string, `+1` per synonyms string). -/
def icdScoreQ (q : List Char) (e : ICDResult) : ℚ :=
  let s1 : ℚ := if jsIncludes (lowerL e.code.data) q then 0 + 2 else 0
  let s2 := if jsIncludes (lowerL e.title.data) q then s1 + 3/2 else s1
  let s3 := (e.includes.getD []).foldl
    (fun acc s => if jsIncludes (lowerL s.data) q then acc + 1 else acc) s2
  let s4 := (e.excludes.getD []).foldl
    (fun acc s => if jsIncludes (lowerL s.data) q then acc + 1/2 else acc) s3
  let s5 := (e.synonyms.getD []).foldl
    (fun acc s => if jsIncludes (lowerL s.data) q then acc + 1 else acc) s4
  s5

/-- The diagnosis-search score as the specification words it, named
separately for the refinement claim: +2 if the code field contains the
normalized query, +1.5 if the title does, +1 per matching `includes`
string, +0.5 per matching `excludes` string and +1 per matching
`synonyms` string (all as case-insensitive substring tests). -/
def claimDiagScore (q : List Char) (e : ICDResult) : ℚ :=
  (if jsIncludes (lowerL e.code.data) q then 2 else 0)
  + (if jsIncludes (lowerL e.title.data) q then 3/2 else 0)
  + ((e.includes.getD []).filter (fun s => jsIncludes (lowerL s.data) q)).length * 1
  + ((e.excludes.getD []).filter (fun s => jsIncludes (lowerL s.data) q)).length * (1/2)
  + ((e.synonyms.getD []).filter (fun s => jsIncludes (lowerL s.data) q)).length * 1

/-- Stable insertion into a list sorted by non-increasing score, placing
the new element before the first strictly-smaller-or-equal score so that
earlier catalog entries keep their position among ties, as the stable JS
`Array.prototype.sort` does. -/
def insertDesc (x : ICDResult × Nat) :
    List (ICDResult × Nat) → List (ICDResult × Nat)
  | [] => [x]
  | y :: t => if y.2 ≤ x.2 then x :: y :: t else y :: insertDesc x t

/-- `scored.sort((a, b) => b.score - a.score)` from the source: a stable
sort by non-increasing score. -/
def sortDesc : List (ICDResult × Nat) → List (ICDResult × Nat)
  | [] => []
  | x :: t => insertDesc x (sortDesc t)

/-- The `scored` list built by `handleIcdSearch`: every catalog entry
paired with its score, keeping only positive scores. -/
def scoredList (q : List Char) : List (ICDResult × Nat) :=
  (SAMPLE_ICD10_DATA.map (fun e => (e, icdScoreH q e))).filter
    (fun p => 0 < p.2)

/-- The diagnosis search (`handleIcdSearch` in the source): empty on a
blank query, otherwise score every catalog entry against the lowercased
trimmed query, keep positive scores, sort by descending score and return
the first five entries. -/
def handleIcdSearch (query : String) : List ICDResult :=
  if jsTrim query = "" then []
  else
    ((sortDesc (scoredList (lowerL (trimL query.data)))).take 5).map
      (fun p => p.1)


/- Basic facts about the modelled JS string primitives. -/

lemma leadsWith_sub : ∀ (h n : List Char), leadsWith h n = true → ∀ c ∈ n, c ∈ h := by
  intro h
  induction h with
  | nil =>
    intro n hn c hc
    cases n with
    | nil => cases hc
    | cons d u => simp [leadsWith] at hn
  | cons x t ih =>
    intro n hn c hc
    cases n with
    | nil => cases hc
    | cons d u =>
      simp only [leadsWith, Bool.and_eq_true, decide_eq_true_eq] at hn
      obtain ⟨hxd, hrest⟩ := hn
      rcases List.mem_cons.mp hc with rfl | hc
      · exact hxd ▸ List.mem_cons_self x t
      · exact List.mem_cons_of_mem x (ih u hrest c hc)

lemma jsIncludes_sub : ∀ (h n : List Char), jsIncludes h n = true → ∀ c ∈ n, c ∈ h := by
  intro h
  induction h with
  | nil =>
    intro n hn c hc
    cases n with
    | nil => cases hc
    | cons d u => simp [jsIncludes, leadsWith] at hn
  | cons x t ih =>
    intro n hn c hc
    rw [jsIncludes, Bool.or_eq_true] at hn
    rcases hn with hn | hn
    · exact leadsWith_sub _ _ hn c hc
    · exact List.mem_cons_of_mem x (ih n hn c hc)

lemma head?_dropWhile_white {p : Char → Bool} :
    ∀ {l : List Char} {c : Char}, (l.dropWhile p).head? = some c → p c = false := by
  intro l
  induction l with
  | nil => intro c hc; cases hc
  | cons x t ih =>
    intro c hc
    by_cases hx : p x
    · rw [List.dropWhile_cons_of_pos hx] at hc
      exact ih hc
    · rw [List.dropWhile_cons_of_neg hx] at hc
      cases hc
      simpa using hx

lemma dropWhile_eq_self_of_head {p : Char → Bool} {l : List Char}
    (h : ∀ c, l.head? = some c → p c = false) : l.dropWhile p = l := by
  cases l with
  | nil => rfl
  | cons x t => exact List.dropWhile_cons_of_neg (by simp [h x rfl])

lemma getLast?_dropWhile {p : Char → Bool} :
    ∀ (l : List Char), l.dropWhile p ≠ [] → (l.dropWhile p).getLast? = l.getLast? := by
  intro l
  induction l with
  | nil => intro h; exact absurd rfl h
  | cons x t ih =>
    intro h
    by_cases hx : p x
    · rw [List.dropWhile_cons_of_pos hx] at h ⊢
      cases t with
      | nil => exact absurd rfl h
      | cons y u => rw [ih h, List.getLast?_cons_cons]
    · rw [List.dropWhile_cons_of_neg hx]

lemma trimL_idem (l : List Char) : trimL (trimL l) = trimL l := by
  by_cases h0 : (l.dropWhile jsWhite).reverse.dropWhile jsWhite = []
  · have h1 : trimL l = [] := by unfold trimL; rw [h0]; rfl
    rw [h1]; rfl
  · have htl : trimL l = ((l.dropWhile jsWhite).reverse.dropWhile jsWhite).reverse := rfl
    have hvhead : ∀ c, ((l.dropWhile jsWhite).reverse.dropWhile jsWhite).head? = some c →
        jsWhite c = false := fun c hc => head?_dropWhile_white hc
    have hrevhead : ∀ c,
        ((l.dropWhile jsWhite).reverse.dropWhile jsWhite).reverse.head? = some c →
        jsWhite c = false := by
      intro c hc
      rw [List.head?_reverse, getLast?_dropWhile _ h0, List.getLast?_reverse] at hc
      exact head?_dropWhile_white hc
    rw [htl]
    unfold trimL
    rw [dropWhile_eq_self_of_head hrevhead, List.reverse_reverse,
        dropWhile_eq_self_of_head hvhead]

lemma trimL_eq_nil_of_white {l : List Char} (h : ∀ c ∈ l, jsWhite c = true) :
    trimL l = [] := by
  have h1 : l.dropWhile jsWhite = [] := List.dropWhile_eq_nil_iff.mpr h
  unfold trimL; rw [h1]; rfl

lemma white_of_trimL_eq_nil {l : List Char} (h : trimL l = []) :
    ∀ c ∈ l, jsWhite c = true := by
  unfold trimL at h
  rw [List.reverse_eq_nil_iff, List.dropWhile_eq_nil_iff] at h
  intro c hc
  rw [← List.takeWhile_append_dropWhile jsWhite l, List.mem_append] at hc
  rcases hc with hc | hc
  · exact List.mem_takeWhile_imp hc
  · exact h c (List.mem_reverse.mpr hc)

lemma jsTrim_idem (s : String) : jsTrim (jsTrim s) = jsTrim s := by
  show String.mk (trimL (trimL s.data)) = String.mk (trimL s.data)
  rw [trimL_idem]

lemma jsTrim_eq_empty_iff {s : String} : jsTrim s = "" ↔ trimL s.data = [] := by
  constructor
  · intro h; exact congrArg String.data h
  · intro h; exact congrArg String.mk h

lemma white_not_upper {c : Char} (h : jsWhite c = true) :
    ('A' ≤ c && c ≤ 'Z') = false := by
  simp only [jsWhite, Bool.or_eq_true, decide_eq_true_eq] at h
  casesm* _ ∨ _ <;> subst_vars <;> decide

lemma lowerChar_of_white {c : Char} (h : jsWhite c = true) : lowerChar c = c := by
  unfold lowerChar
  rw [white_not_upper h]
  rfl

lemma trim_ne_nil_of_lower_mem {l : List Char} {c : Char}
    (hc : c ∈ lowerL l) (hw : jsWhite c = false) : trimL l ≠ [] := by
  intro hnil
  obtain ⟨c', hc', rfl⟩ := List.mem_map.mp hc
  have hw' : jsWhite c' = true := white_of_trimL_eq_nil hnil c' hc'
  rw [lowerChar_of_white hw'] at hw
  rw [hw'] at hw
  cases hw

/- Closed forms for the accumulated search scores. -/

lemma foldl_if_count_rat (p : String → Bool) (c : ℚ) :
    ∀ (l : List String) (a : ℚ),
      l.foldl (fun acc s => if p s then acc + c else acc) a
        = a + (l.filter p).length * c := by
  intro l
  induction l with
  | nil => intro a; simp
  | cons s t ih =>
    intro a
    by_cases hp : p s
    · simp only [List.foldl_cons, List.filter_cons, hp, if_pos, ih,
        List.length_cons]
      push_cast
      ring
    · simp only [List.foldl_cons, List.filter_cons, hp, if_neg, ih]
      simp [hp]

lemma foldl_if_count_nat (p : String → Bool) (c : Nat) :
    ∀ (l : List String) (a : Nat),
      l.foldl (fun acc s => if p s then acc + c else acc) a
        = a + (l.filter p).length * c := by
  intro l
  induction l with
  | nil => intro a; simp
  | cons s t ih =>
    intro a
    by_cases hp : p s
    · simp only [List.foldl_cons, List.filter_cons, hp, if_pos, ih,
        List.length_cons]
      ring
    · simp only [List.foldl_cons, List.filter_cons, hp, if_neg, ih]
      simp [hp]

lemma icdScoreQ_eq_claim (q : List Char) (e : ICDResult) :
    icdScoreQ q e = claimDiagScore q e := by
  simp only [icdScoreQ, claimDiagScore, foldl_if_count_rat]
  split <;> split <;> ring

lemma icdScoreH_eq_twice (q : List Char) (e : ICDResult) :
    (icdScoreH q e : ℚ) = 2 * icdScoreQ q e := by
  simp only [icdScoreH, icdScoreQ, foldl_if_count_nat, foldl_if_count_rat]
  push_cast
  split <;> split <;> ring

/- Facts about the stable descending-score sort. -/

lemma mem_insertDesc {x z : ICDResult × Nat} :
    ∀ {l : List (ICDResult × Nat)}, z ∈ insertDesc x l ↔ z = x ∨ z ∈ l := by
  intro l
  induction l with
  | nil => simp [insertDesc]
  | cons y t ih =>
    simp only [insertDesc]
    split
    · simp [List.mem_cons]
    · simp only [List.mem_cons, ih]
      tauto

lemma pairwise_insertDesc {x : ICDResult × Nat} :
    ∀ {l : List (ICDResult × Nat)},
      l.Pairwise (fun u v => v.2 ≤ u.2) →
      (insertDesc x l).Pairwise (fun u v => v.2 ≤ u.2) := by
  intro l
  induction l with
  | nil => intro _; simp [insertDesc]
  | cons y t ih =>
    intro h
    rw [List.pairwise_cons] at h
    obtain ⟨hy, ht⟩ := h
    rw [insertDesc]
    split
    · rename_i hc
      rw [List.pairwise_cons]
      constructor
      · intro a ha
        rcases List.mem_cons.mp ha with rfl | ha
        · exact hc
        · exact le_trans (hy a ha) hc
      · rw [List.pairwise_cons]
        exact ⟨hy, ht⟩
    · rename_i hc
      rw [List.pairwise_cons]
      constructor
      · intro a ha
        rcases mem_insertDesc.mp ha with rfl | ha
        · omega
        · exact hy a ha
      · exact ih ht

lemma sortDesc_sorted :
    ∀ (l : List (ICDResult × Nat)),
      (sortDesc l).Pairwise (fun u v => v.2 ≤ u.2) := by
  intro l
  induction l with
  | nil => simp [sortDesc]
  | cons x t ih => exact pairwise_insertDesc ih

lemma mem_sortDesc {z : ICDResult × Nat} :
    ∀ {l : List (ICDResult × Nat)}, z ∈ sortDesc l ↔ z ∈ l := by
  intro l
  induction l with
  | nil => simp [sortDesc]
  | cons x t ih =>
    rw [sortDesc, mem_insertDesc, List.mem_cons, ih]

lemma mem_scoredList {q : List Char} {p : ICDResult × Nat}
    (hp : p ∈ scoredList q) : p.2 = icdScoreH q p.1 ∧ 0 < p.2 := by
  rw [scoredList, List.mem_filter] at hp
  obtain ⟨hm, hpos⟩ := hp
  obtain ⟨e, _, rfl⟩ := List.mem_map.mp hm
  exact ⟨rfl, by simpa using hpos⟩

lemma mem_handleIcdSearch {query : String} {e : ICDResult}
    (he : e ∈ handleIcdSearch query) :
    0 < icdScoreH (lowerL (trimL query.data)) e := by
  rw [handleIcdSearch] at he
  split at he
  · cases he
  · obtain ⟨p, hp, rfl⟩ := List.mem_map.mp he
    have hp' : p ∈ scoredList (lowerL (trimL query.data)) :=
      mem_sortDesc.mp ((List.take_sublist 5 _).mem hp)
    obtain ⟨hsc, hpos⟩ := mem_scoredList hp'
    rw [hsc] at hpos
    exact hpos

/- Facts about the NCCI pair table lookup. -/

lemma pairsLookup_cases {a b : String} {r : NcciPairRecord}
    (h : pairsLookup a b = some r) :
    (a = "11719" ∧ b = "11720") ∨ (a = "17000" ∧ b = "17110") ∨
      (a = "71045" ∧ b = "71046") := by
  rw [pairsLookup] at h
  rcases ha : alookup a NCCI_PAIRS with _ | inner
  · rw [ha] at h; cases h
  · rw [ha] at h
    rw [NCCI_PAIRS] at ha
    simp only [alookup] at ha
    split_ifs at ha with h1 h2 h3
    · cases ha
      simp only [alookup] at h
      split_ifs at h with hb
      exact Or.inl ⟨h1, hb⟩
    · cases ha
      simp only [alookup] at h
      split_ifs at h with hb
      exact Or.inr (Or.inl ⟨h2, hb⟩)
    · cases ha
      simp only [alookup] at h
      split_ifs at h with hb
      exact Or.inr (Or.inr ⟨h3, hb⟩)

lemma pairsLookup_asym {a b : String} {r : NcciPairRecord}
    (h : pairsLookup a b = some r) : pairsLookup b a = none := by
  rcases pairsLookup_cases h with ⟨rfl, rfl⟩ | ⟨rfl, rfl⟩ | ⟨rfl, rfl⟩ <;> rfl

/- Facts about the modifier suggestion rules and deduplication. -/

lemma ifseg_sublist {c : Prop} [Decidable c] {code : String} {m : ModifierResult}
    (hm : findMod code = [m]) :
    (if c then findMod code else []).Sublist [m] := by
  split
  · rw [hm]
  · exact List.nil_sublist _

lemma suggestions_sublist (q : List Char) :
    (suggestions q).Sublist [mod50, modLT, modRT, mod76, mod59, mod25, mod26, modTC] := by
  show (suggestions q).Sublist
    ((((((([mod50] ++ [modLT]) ++ [modRT]) ++ [mod76]) ++ [mod59]) ++ [mod25]) ++ [mod26]) ++ [modTC])
  rw [suggestions]
  refine List.Sublist.append ?_ (ifseg_sublist (show findMod "TC" = [modTC] from rfl))
  refine List.Sublist.append ?_ (ifseg_sublist (show findMod "26" = [mod26] from rfl))
  refine List.Sublist.append ?_ (ifseg_sublist (show findMod "25" = [mod25] from rfl))
  refine List.Sublist.append ?_ (ifseg_sublist (show findMod "59" = [mod59] from rfl))
  refine List.Sublist.append ?_ (ifseg_sublist (show findMod "76" = [mod76] from rfl))
  refine List.Sublist.append ?_ (ifseg_sublist (show findMod "RT" = [modRT] from rfl))
  exact List.Sublist.append (ifseg_sublist (show findMod "50" = [mod50] from rfl))
    (ifseg_sublist (show findMod "LT" = [modLT] from rfl))

lemma dedupBy_sublist : ∀ (seen : List String) (l : List ModifierResult),
    (dedupBy seen l).Sublist l := by
  intro seen l
  induction l generalizing seen with
  | nil => simp [dedupBy]
  | cons m t ih =>
    rw [dedupBy]
    split
    · exact (ih seen).trans (List.sublist_cons_self m t)
    · exact (ih _).cons₂ m

lemma mem_dedupBy {m : ModifierResult} :
    ∀ {seen : List String} {l : List ModifierResult},
      m ∈ l → (∀ m' ∈ l, m'.code = m.code → m' = m) →
      seen.contains m.code = false → m ∈ dedupBy seen l := by
  intro seen l
  induction l generalizing seen with
  | nil => intro h _ _; cases h
  | cons x t ih =>
    intro hm hom hseen
    rw [dedupBy]
    split
    · rename_i hc
      rcases List.mem_cons.mp hm with rfl | hm'
      · rw [hseen] at hc; cases hc
      · exact ih hm' (fun m' h' he => hom m' (List.mem_cons_of_mem x h') he) hseen
    · by_cases hxm : x = m
      · subst hxm
        exact List.mem_cons_self x _
      · rcases List.mem_cons.mp hm with rfl | hm'
        · exact absurd rfl hxm
        · have hcode : x.code ≠ m.code :=
            fun he => hxm (hom x (List.mem_cons_self x t) he)
          have hs' : (x.code :: seen).contains m.code = false := by
            rw [List.contains_cons, hseen, Bool.or_false,
                beq_eq_false_iff_ne]
            exact Ne.symm hcode
          exact List.mem_cons_of_mem x
            (ih hm' (fun m' h' he => hom m' (List.mem_cons_of_mem x h') he) hs')

lemma eight_code_inj :
    ∀ m ∈ [mod50, modLT, modRT, mod76, mod59, mod25, mod26, modTC],
      ∀ m₀ ∈ [mod50, modLT, modRT, mod76, mod59, mod25, mod26, modTC],
        m.code = m₀.code → m = m₀ := by decide

/-- Claim C3: the NCCI pair check is symmetric: for every two code strings
the checks in either order yield identical status, message and
modifier-required fields, and only the echoed cpt fields swap. -/
theorem ncci_check_symmetric (a b : String) :
    handleNcciCheck b a = (handleNcciCheck a b).map
      (fun r => ⟨r.cpt_b, r.cpt_a, r.status, r.message, r.modifier_required⟩) := by
  rw [handleNcciCheck, handleNcciCheck]
  by_cases hga : jsTrim a = ""
  · rw [if_pos (Or.inr hga), if_pos (Or.inl hga)]
    rfl
  · by_cases hgb : jsTrim b = ""
    · rw [if_pos (Or.inl hgb), if_pos (Or.inr hgb)]
      rfl
    · rw [if_neg (by tauto), if_neg (by tauto)]
      rcases h1 : pairsLookup (jsTrim a) (jsTrim b) with _ | r1
      · rcases h2 : pairsLookup (jsTrim b) (jsTrim a) with _ | r2
        · simp [h1, h2]
        · simp [h1, h2]
      · have h2 : pairsLookup (jsTrim b) (jsTrim a) = none := pairsLookup_asym h1
        simp [h1, h2]

/-- Claim C4: a pair of non-blank codes whose trimmed pair is registered in
the table in neither order gets the synthesized allowed result with the
generic message and no modifier requirement. -/
theorem ncci_default_allowed (a b : String) (ha : jsTrim a ≠ "") (hb : jsTrim b ≠ "")
    (h1 : pairsLookup (jsTrim a) (jsTrim b) = none)
    (h2 : pairsLookup (jsTrim b) (jsTrim a) = none) :
    handleNcciCheck a b = some ⟨jsTrim a, jsTrim b, "allowed",
      "No known NCCI bundling issues between these CPT codes.", false⟩ := by
  rw [handleNcciCheck, if_neg (by tauto)]
  simp [h1, h2]

/-- Witness for claim C4 at the unregistered pair 99999/88888. -/
theorem ncci_default_allowed_witness :
    jsTrim "99999" ≠ "" ∧ jsTrim "88888" ≠ "" ∧
    pairsLookup (jsTrim "99999") (jsTrim "88888") = none ∧
    pairsLookup (jsTrim "88888") (jsTrim "99999") = none ∧
    handleNcciCheck "99999" "88888" = some ⟨jsTrim "99999", jsTrim "88888", "allowed",
      "No known NCCI bundling issues between these CPT codes.", false⟩ :=
  ⟨by decide, by decide, by decide, by decide,
    ncci_default_allowed "99999" "88888" (by decide) (by decide) (by decide) (by decide)⟩

/-- Claim C5: whitespace-only queries and scenarios give an empty result
list, and a blank code makes the pair check return no result at all. -/
theorem blank_inputs_give_empty_results :
    (∀ q : String, (∀ c ∈ q.data, jsWhite c = true) →
      handleIcdSearch q = [] ∧ handleModifierSearch q = []) ∧
    (∀ a b : String,
      ((∀ c ∈ a.data, jsWhite c = true) ∨ (∀ c ∈ b.data, jsWhite c = true)) →
      handleNcciCheck a b = none) := by
  constructor
  · intro q hq
    have h : jsTrim q = "" := jsTrim_eq_empty_iff.mpr (trimL_eq_nil_of_white hq)
    constructor
    · rw [handleIcdSearch, if_pos h]
    · rw [handleModifierSearch, if_pos h]
  · intro a b hab
    rcases hab with h | h
    · rw [handleNcciCheck,
        if_pos (Or.inl (jsTrim_eq_empty_iff.mpr (trimL_eq_nil_of_white h)))]
    · rw [handleNcciCheck,
        if_pos (Or.inr (jsTrim_eq_empty_iff.mpr (trimL_eq_nil_of_white h)))]

/-- Witness for claim C5 at a whitespace query and a blank first code. -/
theorem blank_inputs_witness :
    (∀ c ∈ ("  ".data), jsWhite c = true) ∧
    (handleIcdSearch "  " = [] ∧ handleModifierSearch "  " = []) ∧
    handleNcciCheck "" "71045" = none :=
  ⟨by decide, blank_inputs_give_empty_results.1 "  " (by decide),
    blank_inputs_give_empty_results.2 "" "71045" (Or.inl (by decide))⟩

/-- Claim C7: when a record is found for the trimmed pair in either table
order, the result echoes the two trimmed arguments in their original
order; in particular check of 71046 against 71045 echoes that order even
though the table stores the pair as 71045/71046. -/
theorem ncci_found_record_echoes_input_order :
    (∀ (a b : String) (r : NcciPairRecord), jsTrim a ≠ "" → jsTrim b ≠ "" →
      (pairsLookup (jsTrim a) (jsTrim b) = some r ∨
        pairsLookup (jsTrim b) (jsTrim a) = some r) →
      handleNcciCheck a b =
        some ⟨jsTrim a, jsTrim b, r.status, r.message, r.modifier_required⟩) ∧
    handleNcciCheck "71046" "71045" =
      some ⟨"71046", "71045", "allowed",
        "Two different chest X‑ray views are generally allowed together.", false⟩ := by
  constructor
  · intro a b r ha hb hr
    rw [handleNcciCheck, if_neg (by tauto)]
    rcases hr with hr | hr
    · simp [hr]
    · have h0 : pairsLookup (jsTrim a) (jsTrim b) = none := by
        rcases h1 : pairsLookup (jsTrim a) (jsTrim b) with _ | r'
        · rfl
        · rw [pairsLookup_asym h1] at hr; cases hr
      simp [h0, hr]
  · decide

/-- Witness for the universally quantified part of claim C7, at the stored
pair 11719/11720 given in table order. -/
theorem ncci_found_record_witness :
    jsTrim "11719" ≠ "" ∧ jsTrim "11720" ≠ "" ∧
    pairsLookup (jsTrim "11719") (jsTrim "11720") = some
      ⟨"denied",
       "CPT 11719 is bundled into 11720; they should not be billed together without appropriate modifier.",
       true⟩ ∧
    handleNcciCheck "11719" "11720" =
      some ⟨jsTrim "11719", jsTrim "11720", "denied",
        "CPT 11719 is bundled into 11720; they should not be billed together without appropriate modifier.",
        true⟩ :=
  ⟨by decide, by decide, by decide,
    ncci_found_record_echoes_input_order.1 "11719" "11720"
      ⟨"denied",
       "CPT 11719 is bundled into 11720; they should not be billed together without appropriate modifier.",
       true⟩
      (by decide) (by decide) (Or.inl (by decide))⟩

/-- Claim C10: the pair check depends only on the trimmed arguments, and
the echoed cpt fields are always the trimmed strings. -/
theorem ncci_check_trim_invariant (a b : String)
    (ha : jsTrim a ≠ "") (hb : jsTrim b ≠ "") :
    handleNcciCheck a b = handleNcciCheck (jsTrim a) (jsTrim b) ∧
    (∀ r, handleNcciCheck a b = some r →
      r.cpt_a = jsTrim a ∧ r.cpt_b = jsTrim b) := by
  constructor
  · rw [handleNcciCheck, handleNcciCheck, jsTrim_idem, jsTrim_idem]
  · intro r hr
    rw [handleNcciCheck, if_neg (by tauto)] at hr
    rcases h1 : pairsLookup (jsTrim a) (jsTrim b) with _ | r1
    · rcases h2 : pairsLookup (jsTrim b) (jsTrim a) with _ | r2
      · simp [h1, h2] at hr
        subst hr
        exact ⟨rfl, rfl⟩
      · simp [h1, h2] at hr
        subst hr
        exact ⟨rfl, rfl⟩
    · simp [h1] at hr
      subst hr
      exact ⟨rfl, rfl⟩

/-- Witness for claim C10 at a padded first argument. -/
theorem ncci_check_trim_invariant_witness :
    jsTrim " 11719 " ≠ "" ∧ jsTrim "11720" ≠ "" ∧
    (handleNcciCheck " 11719 " "11720" =
        handleNcciCheck (jsTrim " 11719 ") (jsTrim "11720") ∧
      ∀ r, handleNcciCheck " 11719 " "11720" = some r →
        r.cpt_a = jsTrim " 11719 " ∧ r.cpt_b = jsTrim "11720") :=
  ⟨by decide, by decide,
    ncci_check_trim_invariant " 11719 " "11720" (by decide) (by decide)⟩

/-- Claim C6: the eight trigger rules are applied in a fixed priority
order, so every output is an in-order selection from the rule-order list
of modifiers; in particular the scenario about a repeat evaluation of a
distinct lesion yields exactly the modifiers 76, 59, 25 in that order. -/
theorem modifier_rules_fixed_order :
    (∀ q : String, (handleModifierSearch q).Sublist
        [mod50, modLT, modRT, mod76, mod59, mod25, mod26, modTC]) ∧
    handleModifierSearch "repeat evaluation of distinct lesion" =
      [mod76, mod59, mod25] := by
  constructor
  · intro q
    rw [handleModifierSearch]
    split
    · exact List.nil_sublist _
    · exact (dedupBy_sublist [] _).trans (suggestions_sublist _)
  · decide

/-- Counterexample to claim C8: the scenario text left bilateral mentions
both left and bilateral, yet the suggestion list has exactly the two
modifiers 50 and LT, not three. -/
theorem modifier_left_bilateral_counterexample :
    jsIncludes (lowerL ("left bilateral".data)) ("left".data) = true ∧
    jsIncludes (lowerL ("left bilateral".data)) ("bilateral".data) = true ∧
    handleModifierSearch "left bilateral" = [mod50, modLT] ∧
    (handleModifierSearch "left bilateral").length = 2 := by decide

/-- Claim C8 as amended: the bilateral rule and the left rule are not
mutually exclusive: every scenario whose lowercased text contains both
left and bilateral surfaces modifier 50 and modifier LT simultaneously. -/
theorem modifier_left_bilateral_amended (q : String)
    (hl : jsIncludes (lowerL q.data) ("left".data) = true)
    (hb : jsIncludes (lowerL q.data) ("bilateral".data) = true) :
    mod50 ∈ handleModifierSearch q ∧ modLT ∈ handleModifierSearch q := by
  have htrim : jsTrim q ≠ "" := by
    intro h
    exact trim_ne_nil_of_lower_mem
      (jsIncludes_sub _ _ hl 'l' (by decide)) (by decide)
      (jsTrim_eq_empty_iff.mp h)
  have hcond1 : (["bilateral", "both sides", "both limbs"].any
      (fun w => jsIncludes (lowerL q.data) w.data)) = true := by
    rw [List.any_eq_true]
    exact ⟨"bilateral", by simp, hb⟩
  have hcond2 : (jsIncludes (lowerL q.data) ("left".data) ||
      jsIncludes (lowerL q.data) (" lt ".data)) = true := by
    rw [Bool.or_eq_true]
    exact Or.inl hl
  have h50s : mod50 ∈ suggestions (lowerL q.data) := by
    rw [suggestions]
    refine List.mem_append_left _ ?_
    refine List.mem_append_left _ ?_
    refine List.mem_append_left _ ?_
    refine List.mem_append_left _ ?_
    refine List.mem_append_left _ ?_
    refine List.mem_append_left _ ?_
    refine List.mem_append_left _ ?_
    rw [if_pos hcond1, show findMod "50" = [mod50] from rfl]
    exact List.mem_singleton.mpr rfl
  have hLTs : modLT ∈ suggestions (lowerL q.data) := by
    rw [suggestions]
    refine List.mem_append_left _ ?_
    refine List.mem_append_left _ ?_
    refine List.mem_append_left _ ?_
    refine List.mem_append_left _ ?_
    refine List.mem_append_left _ ?_
    refine List.mem_append_left _ ?_
    refine List.mem_append_right _ ?_
    rw [if_pos hcond2, show findMod "LT" = [modLT] from rfl]
    exact List.mem_singleton.mpr rfl
  have hom : ∀ m₀, m₀ ∈ [mod50, modLT, modRT, mod76, mod59, mod25, mod26, modTC] →
      ∀ m' ∈ suggestions (lowerL q.data), m'.code = m₀.code → m' = m₀ :=
    fun m₀ hm₀ m' hm' he =>
      eight_code_inj m' ((suggestions_sublist _).subset hm') m₀ hm₀ he
  rw [handleModifierSearch, if_neg htrim]
  exact ⟨mem_dedupBy h50s (hom mod50 (by simp)) rfl,
    mem_dedupBy hLTs (hom modLT (by simp)) rfl⟩

/-- Witness for the amended claim C8 at the scenario left bilateral. -/
theorem modifier_left_bilateral_amended_witness :
    jsIncludes (lowerL ("left bilateral knee".data)) ("left".data) = true ∧
    jsIncludes (lowerL ("left bilateral knee".data)) ("bilateral".data) = true ∧
    (mod50 ∈ handleModifierSearch "left bilateral knee" ∧
      modLT ∈ handleModifierSearch "left bilateral knee") :=
  ⟨by decide, by decide,
    modifier_left_bilateral_amended "left bilateral knee" (by decide) (by decide)⟩

/-- Claim C1: for every query that is non-empty after trimming and every
catalog entry, the search score equals the stated sum of field weights
(+2 code, +1.5 title, +1 per includes string, +0.5 per excludes string,
+1 per synonyms string), and an entry whose score is 0 is excluded from
the result. -/
theorem icd_score_formula (query : String) (_hq : jsTrim query ≠ "")
    (e : ICDResult) (_he : e ∈ SAMPLE_ICD10_DATA) :
    icdScoreQ (lowerL (trimL query.data)) e
      = claimDiagScore (lowerL (trimL query.data)) e ∧
    (icdScoreQ (lowerL (trimL query.data)) e = 0 →
      e ∉ handleIcdSearch query) := by
  refine ⟨icdScoreQ_eq_claim _ _, ?_⟩
  intro h0 hmem
  have hpos := mem_handleIcdSearch hmem
  have hq2 := icdScoreH_eq_twice (lowerL (trimL query.data)) e
  rw [h0, mul_zero] at hq2
  have hz : icdScoreH (lowerL (trimL query.data)) e = 0 := by exact_mod_cast hq2
  omega

/-- Witness for claim C1 at the query flu and the catalog entry I10. -/
theorem icd_score_formula_witness :
    jsTrim "flu" ≠ "" ∧
    (⟨"I10", "Essential (primary) hypertension", none, none,
      some ["HTN", "high blood pressure"]⟩ : ICDResult) ∈ SAMPLE_ICD10_DATA ∧
    (icdScoreQ (lowerL (trimL ("flu".data)))
        ⟨"I10", "Essential (primary) hypertension", none, none,
         some ["HTN", "high blood pressure"]⟩
      = claimDiagScore (lowerL (trimL ("flu".data)))
        ⟨"I10", "Essential (primary) hypertension", none, none,
         some ["HTN", "high blood pressure"]⟩ ∧
     (icdScoreQ (lowerL (trimL ("flu".data)))
        ⟨"I10", "Essential (primary) hypertension", none, none,
         some ["HTN", "high blood pressure"]⟩ = 0 →
      (⟨"I10", "Essential (primary) hypertension", none, none,
        some ["HTN", "high blood pressure"]⟩ : ICDResult)
        ∉ handleIcdSearch "flu")) :=
  ⟨by decide, by decide,
    icd_score_formula "flu" (by decide)
      ⟨"I10", "Essential (primary) hypertension", none, none,
       some ["HTN", "high blood pressure"]⟩ (by decide)⟩

/-- Claim C2: the diagnosis search returns at most five entries, ordered
by non-increasing score. -/
theorem icd_search_top5_sorted (query : String) :
    (handleIcdSearch query).length ≤ 5 ∧
    (handleIcdSearch query).Pairwise (fun e1 e2 =>
      icdScoreQ (lowerL (trimL query.data)) e2 ≤
        icdScoreQ (lowerL (trimL query.data)) e1) := by
  rw [handleIcdSearch]
  split
  · simp
  · constructor
    · rw [List.length_map, List.length_take]
      exact inf_le_left
    · rw [List.pairwise_map]
      have hs : (sortDesc (scoredList (lowerL (trimL query.data)))).Pairwise
          (fun u v => v.2 ≤ u.2) := sortDesc_sorted _
      have ht := hs.sublist (List.take_sublist 5 _)
      refine ht.imp_of_mem ?_
      intro p1 p2 h1 h2 hle
      have m1 := mem_scoredList (mem_sortDesc.mp ((List.take_sublist 5 _).mem h1))
      have m2 := mem_scoredList (mem_sortDesc.mp ((List.take_sublist 5 _).mem h2))
      have e1 := icdScoreH_eq_twice (lowerL (trimL query.data)) p1.1
      have e2 := icdScoreH_eq_twice (lowerL (trimL query.data)) p2.1
      rw [← m1.1] at e1
      rw [← m2.1] at e2
      have hc : (p2.2 : ℚ) ≤ (p1.2 : ℚ) := by exact_mod_cast hle
      linarith

/-- Claim C9: searching for knee pain right returns the entry M25.561
first (here: as the only result), and that entry scores exactly 1, via
its matching synonym alone. -/
theorem icd_search_knee_pain_right_top :
    (handleIcdSearch "knee pain right").map ICDResult.code = ["M25.561"] ∧
    icdScoreQ (lowerL (trimL ("knee pain right".data)))
        ⟨"M25.561", "Pain in right knee", some ["Right knee pain"],
         some ["Pain in left knee (M25.562)"],
         some ["knee pain right", "arthralgia right knee"]⟩ = 1 := by
  constructor
  · decide
  · have hH : icdScoreH (lowerL (trimL ("knee pain right".data)))
        ⟨"M25.561", "Pain in right knee", some ["Right knee pain"],
         some ["Pain in left knee (M25.562)"],
         some ["knee pain right", "arthralgia right knee"]⟩ = 2 := by decide
    have hq2 := icdScoreH_eq_twice (lowerL (trimL ("knee pain right".data)))
        ⟨"M25.561", "Pain in right knee", some ["Right knee pain"],
         some ["Pain in left knee (M25.562)"],
         some ["knee pain right", "arthralgia right knee"]⟩
    rw [hH] at hq2
    have : (2 : ℚ) = 2 * icdScoreQ (lowerL (trimL ("knee pain right".data)))
        ⟨"M25.561", "Pain in right knee", some ["Right knee pain"],
         some ["Pain in left knee (M25.562)"],
         some ["knee pain right", "arthralgia right knee"]⟩ := by exact_mod_cast hq2
    linarith
